import Mathlib

/-!
# Verification of the DashTunisia poverty-dashboard data pipeline

Shallow embedding of the data-enrichment and aggregation core of
`src/poverty_dashboard/app.py` (a Streamlit dashboard over Tunisia's 2015
poverty statistics), together with theorems settling the specification's
claims about it.

Conventions of the embedding:
* pandas dataframes become `List` of record structures; a column derived by
  `Series.map` over a dict becomes an `Option`-valued field (pandas yields
  `NaN` for a missing key, embedded as `none`);
* Python floats are embedded as `ℚ` (exact arithmetic; where the exact value
  and float evaluation differ this is noted at the relevant theorem);
* Python `int()` (truncation toward zero) is embedded as `pyInt`;
* the `try/except FileNotFoundError` control flow of `load_data` becomes a
  total function from an explicit file-system state to an outcome type with
  one constructor per observable behaviour (returned value, caught-error
  banner, uncaught exception).
-/

namespace DashTunisia

/-- A raw row of `data/poverty_tunisia.csv` as the code reads it: a
`Governorate` name column and a numeric `Poverty_Rate` column
(`pd.read_csv` at app.py line 39; the code accesses exactly these two
columns). -/
structure RawRow where
  Governorate : String
  Poverty_Rate : ℚ
deriving DecidableEq, Repr

/-- A row of the enriched governorate table produced by `load_data`
(app.py lines 44-56): the name column renamed to `Name`, a constant
`entity_type` tag (`df_poverty['Type'] = 'Gouvernorat'`), and a `Region`
derived by `df_poverty['Name'].map(region_map)` — `Option`-valued because
`Series.map` yields `NaN` (here `none`) for a name absent from the dict. -/
structure GovRow where
  Name : String
  Poverty_Rate : ℚ
  entity_type : String
  Region : Option String
deriving DecidableEq, Repr

/-- Association-list lookup, the embedding of Python dict lookup as used by
`Series.map(dict)` and `Series.replace(dict)`. -/
def mapLookup (k : String) : List (String × String) → Option String
  | [] => none
  | (a, b) :: rest => if k = a then some b else mapLookup k rest

/-- The fixed governorate-name → region-name lookup table (app.py lines
47-55), verbatim. -/
def region_map : List (String × String) :=
  [("Tunis", "Grand Tunis"), ("Ariana", "Grand Tunis"),
   ("Ben Arous", "Grand Tunis"), ("Manouba", "Grand Tunis"),
   ("Nabeul", "Nord-Est"), ("Zaghouan", "Nord-Est"), ("Bizerte", "Nord-Est"),
   ("Beja", "Nord-Ouest"), ("Jendouba", "Nord-Ouest"),
   ("Le Kef", "Nord-Ouest"), ("Siliana", "Nord-Ouest"),
   ("Sousse", "Centre-Est"), ("Monastir", "Centre-Est"),
   ("Mahdia", "Centre-Est"), ("Sfax", "Centre-Est"),
   ("Kairouan", "Centre-Ouest"), ("Kasserine", "Centre-Ouest"),
   ("Sidi Bouzid", "Centre-Ouest"),
   ("Gabes", "Sud-Est"), ("Medenine", "Sud-Est"), ("Tataouine", "Sud-Est"),
   ("Gafsa", "Sud-Ouest"), ("Tozeur", "Sud-Ouest"), ("Kebili", "Sud-Ouest")]

/-- The enrichment step of `load_data` (app.py lines 44-62): rename
`Governorate` → `Name`, tag every row with `Type = 'Gouvernorat'`, derive
`Region` by dict lookup (`none` when the name is unmapped — pandas `map`
never fails), and concatenate the always-empty delegation placeholder
(which contributes zero rows). Row order is preserved. -/
def enrich (raw : List RawRow) : List GovRow :=
  raw.map fun r =>
    { Name := r.Governorate
      Poverty_Rate := r.Poverty_Rate
      entity_type := "Gouvernorat"
      Region := mapLookup r.Governorate region_map }

/-- A row of the hand-curated regional summary table (app.py lines 72-85).
Field names mirror the source's column labels `'Région'`, `'Taux_Pauvreté'`,
`'Population'`, `'Gouvernorats'` (accents dropped: Lean identifiers cannot
carry them). `Gouvernorats` holds the member governorate names; the source
stores them as one comma-joined display string
(e.g. `'Tunis, Ariana, Ben Arous, Manouba'`), embedded here as the list of
the comma-separated names. -/
structure RegionRow where
  Region_name : String
  Taux_Pauvrete : ℚ
  Population : ℕ
  Gouvernorats : List String
deriving DecidableEq, Repr

/-- The regional summary table `region_summary` (app.py lines 72-85),
verbatim, with each comma-joined `Gouvernorats` string split into its
member names. Note the source spellings `Seliana` (line 79) and `Médenine`
(line 82). -/
def region_summary : List RegionRow :=
  [⟨"Grand Tunis", 6.1, 2719000, ["Tunis", "Ariana", "Ben Arous", "Manouba"]⟩,
   ⟨"Nord-Est", 11.9, 1533064, ["Nabeul", "Zaghouan", "Bizerte"]⟩,
   ⟨"Nord-Ouest", 25.8, 1378596, ["Beja", "Jendouba", "Le Kef", "Seliana"]⟩,
   ⟨"Centre-Est", 11.7, 2580032, ["Sousse", "Monastir", "Mahdia", "Sfax"]⟩,
   ⟨"Centre-Ouest", 29.3, 1439714, ["Kairouan", "Kasserine", "Sidi Bouzid"]⟩,
   ⟨"Sud-Est", 17.8, 1003273, ["Gabes", "Médenine", "Tataouine"]⟩,
   ⟨"Sud-Ouest", 18.2, 602204, ["Gafsa", "Tozeur", "Kebili"]⟩]

/-- The governorate names that `region_map` assigns to a given region
(the fiber of the lookup table over one region name). -/
def regionMembers (reg : String) : List String :=
  (region_map.filter fun p => p.2 == reg).map Prod.fst

/-! ## The `load_data` control flow (app.py lines 37-67)

`load_data` wraps the whole load in `try: ... except FileNotFoundError`.
Only a missing file is caught (the code shows an error banner and returns
`(None, None)`); a present-but-unparseable file makes `pd.read_csv` /
`json.load` raise an exception the function does not catch; an unmapped
governorate name raises nothing at all. -/

/-- State of one input file: absent, present but unparseable, or present
with parsed content `α`. -/
inductive FileState (α : Type) where
  | missing : FileState α
  | unparseable : FileState α
  | parsed : α → FileState α
deriving DecidableEq, Repr

/-- Opaque stand-in for the parsed geojson content (the pipeline never
inspects it; it is handed to the renderer unchanged). -/
structure GeoData where
  id : ℕ
deriving DecidableEq, Repr

/-- Observable outcome of calling `load_data`. -/
inductive LoadOutcome where
  /-- Normal return `(df_poverty, geojson_data)`. -/
  | success : List GovRow → GeoData → LoadOutcome
  /-- The `except FileNotFoundError` branch: `st.error(...)` banner and
  return value `(None, None)` (app.py lines 65-67). -/
  | errorBanner : LoadOutcome
  /-- An exception `load_data` does not catch (e.g. `pandas` parse errors
  or `json.JSONDecodeError`) propagating out of the function. -/
  | uncaughtException : LoadOutcome
deriving DecidableEq, Repr

/-- `load_data` (app.py lines 37-67) over an explicit file-system state:
`pd.read_csv` runs first, then `json.load`; `FileNotFoundError` from either
is caught and turned into the banner return, any other parse failure
propagates, and a successful read is enriched by `enrich`. -/
def load_data (csv : FileState (List RawRow)) (geo : FileState GeoData) :
    LoadOutcome :=
  match csv with
  | .missing => .errorBanner
  | .unparseable => .uncaughtException
  | .parsed rows =>
    match geo with
    | .missing => .errorBanner
    | .unparseable => .uncaughtException
    | .parsed g => .success (enrich rows) g

/-! ## Aggregation routines -/

/-- Python `int()` applied to an exact rational: truncation toward zero,
i.e. T-division of the numerator by the denominator. -/
def pyInt (q : ℚ) : ℤ :=
  q.num.tdiv q.den

/-- The poor-population estimate
`int(region_data['Population'] * region_data['Taux_Pauvreté'] / 100)`
(app.py line 250). -/
def poor_population (pop : ℕ) (rate : ℚ) : ℤ :=
  pyInt ((pop : ℚ) * rate / 100)

/-- The governorate ranking
`(gov_data['Poverty_Rate'] > gov_info['Poverty_Rate']).sum() + 1`
(app.py line 414): one plus the number of rates strictly greater than the
given rate. -/
def rank (rate : ℚ) (allRates : List ℚ) : ℕ :=
  (allRates.countP fun r => decide (rate < r)) + 1

/-- Descending comparison on `Poverty_Rate`, the order under which pandas
`nlargest` sorts. -/
def rateGE (x y : GovRow) : Prop :=
  y.Poverty_Rate ≤ x.Poverty_Rate

/-- Ascending comparison on `Poverty_Rate`, the order under which pandas
`nsmallest` sorts. -/
def rateLE (x y : GovRow) : Prop :=
  x.Poverty_Rate ≤ y.Poverty_Rate

instance : DecidableRel rateGE := fun x y =>
  inferInstanceAs (Decidable (y.Poverty_Rate ≤ x.Poverty_Rate))

instance : DecidableRel rateLE := fun x y =>
  inferInstanceAs (Decidable (x.Poverty_Rate ≤ y.Poverty_Rate))

instance : IsTotal GovRow rateGE :=
  ⟨fun x y => (le_total y.Poverty_Rate x.Poverty_Rate).imp id id⟩

instance : IsTrans GovRow rateGE :=
  ⟨fun _ _ _ h h' => le_trans h' h⟩

instance : IsTotal GovRow rateLE :=
  ⟨fun x y => le_total x.Poverty_Rate y.Poverty_Rate⟩

instance : IsTrans GovRow rateLE :=
  ⟨fun _ _ _ h h' => le_trans h h'⟩

/-- `gov_data.nlargest(n, 'Poverty_Rate')` (app.py line 459 with `n = 5`):
the first `n` rows under a stable descending sort by rate (pandas
`keep='first'` prioritises earlier rows among ties, which is exactly the
behaviour of a stable sort). -/
def nlargest (n : ℕ) (records : List GovRow) : List GovRow :=
  (records.insertionSort rateGE).take n

/-- `gov_data.nsmallest(n, 'Poverty_Rate')` (app.py line 465 with `n = 5`):
the first `n` rows under a stable ascending sort by rate. -/
def nsmallest (n : ℕ) (records : List GovRow) : List GovRow :=
  (records.insertionSort rateLE).take n

/-! ## Grouped descriptive statistics (app.py lines 503-509)

`gov_data.groupby('Region')['Poverty_Rate'].agg([mean, median, min, max,
std]).round(2)`. Embedded over exact rationals; the standard deviation is
represented by its square (the sample variance, pandas' default
`ddof = 1`), since the square root leaves `ℚ`. Statistics of an empty rate
list are `none` (pandas `NaN`), as is the sample variance of a singleton. -/

/-- The rates of the records whose `Region` is `some reg` — the group that
`groupby('Region')` forms for the key `reg`. -/
def ratesIn (records : List GovRow) (reg : String) : List ℚ :=
  (records.filter fun g => g.Region == some reg).map GovRow.Poverty_Rate

/-- Arithmetic mean of a rate list (`'mean'`). -/
def meanQ (l : List ℚ) : Option ℚ :=
  if l.isEmpty then none else some (l.sum / l.length)

/-- pandas `'median'`: middle element of the sorted list for odd length,
average of the two middle elements for even length. -/
def medianQ (l : List ℚ) : Option ℚ :=
  if l.isEmpty then none
  else
    let s := l.insertionSort (· ≤ ·)
    if l.length % 2 = 1 then some (s.getD (l.length / 2) 0)
    else some ((s.getD (l.length / 2 - 1) 0 + s.getD (l.length / 2) 0) / 2)

/-- pandas `'min'`. -/
def minQ (l : List ℚ) : Option ℚ :=
  l.foldr (fun x acc => some (match acc with | none => x | some m => min x m)) none

/-- pandas `'max'`. -/
def maxQ (l : List ℚ) : Option ℚ :=
  l.foldr (fun x acc => some (match acc with | none => x | some m => max x m)) none

/-- The square of pandas `'std'` (sample standard deviation, `ddof = 1`):
`Σ (x - mean)² / (n - 1)`; `none` for fewer than two samples. -/
def sampleVarQ (l : List ℚ) : Option ℚ :=
  if l.length < 2 then none
  else
    let m := l.sum / l.length
    some ((l.map fun x => (x - m) ^ 2).sum / ((l.length : ℚ) - 1))

/-- One row of the `stats` summary dataframe (app.py lines 503-509), with
the standard deviation carried as its square. -/
structure RegionStats where
  moyenne : Option ℚ
  mediane : Option ℚ
  minR : Option ℚ
  maxR : Option ℚ
  ecartTypeSq : Option ℚ
deriving DecidableEq, Repr

/-- `groupedStats` for one region key: the aggregates of that region's
member rates. -/
def stats (records : List GovRow) (reg : String) : RegionStats :=
  { moyenne := meanQ (ratesIn records reg)
    mediane := medianQ (ratesIn records reg)
    minR := minQ (ratesIn records reg)
    maxR := maxQ (ratesIn records reg)
    ecartTypeSq := sampleVarQ (ratesIn records reg) }

/-! ## Choropleth name reconciliation (app.py lines 165-177) -/

/-- The fixed canonical-name → geographic-join-key table `name_mapping`
(app.py lines 167-176), verbatim. -/
def name_mapping : List (String × String) :=
  [("Ben Arous", "BenArous(TunisSud)"),
   ("Beja", "Béja"),
   ("Gabes", "Gabès"),
   ("Kasserine", "Kassérine"),
   ("Le Kef", "LeKef"),
   ("Manouba", "Manubah"),
   ("Medenine", "Médenine"),
   ("Sidi Bouzid", "SidiBouZid")]

/-- `Series.replace(name_mapping)`: a name with an entry is replaced, any
other name passes through unchanged (identity default). -/
def applyNameMapping (n : String) : String :=
  (mapLookup n name_mapping).getD n

/-- A row of the rendering-local dataframe `gov_data_for_map` (app.py lines
165-177): `display_name` keeps the original `Name`, `Name` is rewritten to
the geographic join key. -/
structure MapRow where
  Name : String
  display_name : String
  Poverty_Rate : ℚ
  Region : Option String
deriving DecidableEq, Repr

/-- The choropleth preparation (app.py lines 165-177): filter to
governorate rows, copy, store the original name in `display_name`, replace
`Name` via `name_mapping`. -/
def gov_data_for_map (df : List GovRow) : List MapRow :=
  (df.filter fun g => g.entity_type == "Gouvernorat").map fun g =>
    { Name := applyNameMapping g.Name
      display_name := g.Name
      Poverty_Rate := g.Poverty_Rate
      Region := g.Region }

/-- The rendering step as it acts on program state: it builds the map table
from a `.copy()` of the canonical dataframe and returns both; the canonical
dataframe is passed through untouched. -/
def choroplethStep (df : List GovRow) : List GovRow × List MapRow :=
  (df, gov_data_for_map df)

/-! ## Schemas (column-name lists) for the placeholder claim -/

/-- Column list of the enriched governorate dataframe before the concat:
the raw columns with `Governorate` renamed to `Name` (app.py line 44), then
the added `Type` (line 45) and `Region` (line 56) columns. -/
def enrichedColumns (rawColumns : List String) : List String :=
  (rawColumns.map fun c => if c == "Governorate" then "Name" else c)
    ++ ["Type", "Region"]

/-- The raw CSV's columns as the code uses them. -/
def rawColumnsUsed : List String :=
  ["Governorate", "Poverty_Rate"]

/-- Column list of the delegation placeholder
`pd.DataFrame(columns=['Name', 'Governorate', 'Region', 'Poverty_Rate',
'Type'])` (app.py line 61), verbatim. -/
def delegationColumns : List String :=
  ["Name", "Governorate", "Region", "Poverty_Rate", "Type"]

/-- The delegation placeholder's rows: none (the dataframe is constructed
with columns only). -/
def df_delegations : List GovRow := []

/-- A concrete 24-row governorate table (one row per `region_map` key, with
a distinct rate per row), used to instantiate the universally quantified
theorems. -/
def sample24 : List GovRow :=
  region_map.enum.map fun p =>
    { Name := p.2.1
      Poverty_Rate := (p.1 : ℚ)
      entity_type := "Gouvernorat"
      Region := some p.2.2 }

/-! ## Helper lemmas -/

/-- Python truncation agrees with the floor on nonnegative rationals. -/
theorem pyInt_eq_floor {q : ℚ} (h : 0 ≤ q) : pyInt q = ⌊q⌋ := by
  rw [pyInt, Rat.floor_def]
  exact Int.tdiv_eq_ediv (Rat.num_nonneg.mpr h) (Int.ofNat_nonneg _)

/-- Mapping then collecting into a `Finset` is the image of the collected
input. -/
theorem toFinset_map_eq_image (f : String → Option String) (m : List String) :
    (m.map f).toFinset = m.toFinset.image f := by
  induction m with
  | nil => simp
  | cons x xs ih => simp [ih]

/-- Strictly more list entries exceed the smaller of two thresholds when
the larger threshold itself occurs in the list. -/
theorem countP_gt_strict {l : List ℚ} {a b : ℚ} (ha : a ∈ l) (hab : b < a) :
    (l.countP fun r => decide (a < r)) < l.countP fun r => decide (b < r) := by
  induction l with
  | nil => cases ha
  | cons x xs ih =>
    have hmono : (xs.countP fun r => decide (a < r))
        ≤ xs.countP fun r => decide (b < r) :=
      List.countP_mono_left fun r _ hr => by
        simp only [decide_eq_true_eq] at hr ⊢
        exact hab.trans hr
    rw [List.countP_cons, List.countP_cons]
    rcases List.mem_cons.mp ha with rfl | hmem
    · have h1 : ¬(a < a) := lt_irrefl a
      simp only [decide_eq_true_eq, if_neg h1, if_pos hab]
      omega
    · have hstep := ih hmem
      by_cases hax : a < x
      · have hbx : b < x := hab.trans hax
        simp only [hax, hbx, decide_eq_true_eq, if_pos]
        omega
      · by_cases hbx : b < x
        · simp only [decide_eq_true_eq, if_neg hax, if_pos hbx]
          omega
        · simp only [decide_eq_true_eq, if_neg hax, if_neg hbx]
          omega

/-- In a list sorted by `r`, every element of the first `n` entries is
`r`-related to every later entry. -/
theorem sorted_take_drop {α : Type} {r : α → α → Prop} {l : List α}
    (h : List.Sorted r l) (n : ℕ) :
    ∀ x ∈ l.take n, ∀ y ∈ l.drop n, r x y := by
  have h' : List.Pairwise r (l.take n ++ l.drop n) := by
    rw [List.take_append_drop]; exact h
  exact (List.pairwise_append.mp h').2.2

/-! ## Claim C1 -/

/-- **C1, counterexample.** The claim says a raw table with an unmapped
governorate name makes `enrich()` fail with `UnmappedRegion` and that the
enriched table never contains a null-region row. On the concrete raw table
`[("Foo", 10)]` (name `"Foo"` absent from `region_map`), `load_data`
succeeds and the one output row carries a null (`none`) region. -/
theorem C1_unmapped_region_counterexample :
    load_data (.parsed [⟨"Foo", 10⟩]) (.parsed ⟨0⟩)
      = .success [⟨"Foo", 10, "Gouvernorat", none⟩] ⟨0⟩ := by
  decide

/-- **C1, amended.** For a raw table containing a governorate name absent
from `region_map`, the load does not fail: `load_data` returns the enriched
table and the offending row is present with a null (`none`) region. -/
theorem C1_unmapped_region_amended (raw : List RawRow) (g : GeoData)
    (r : RawRow) (hr : r ∈ raw)
    (hname : mapLookup r.Governorate region_map = none) :
    load_data (.parsed raw) (.parsed g) = .success (enrich raw) g ∧
    ∃ row ∈ enrich raw, row.Name = r.Governorate ∧ row.Region = none := by
  refine ⟨rfl, ⟨_, List.mem_map_of_mem _ hr, rfl, ?_⟩⟩
  simpa [enrich] using hname

/-- **C1, witness** for the amended theorem at the raw table
`[("Foo", 10)]`. -/
theorem C1_unmapped_region_witness :
    (⟨"Foo", 10⟩ : RawRow) ∈ [(⟨"Foo", 10⟩ : RawRow)] ∧
    mapLookup "Foo" region_map = none ∧
    (load_data (.parsed [⟨"Foo", 10⟩]) (.parsed ⟨0⟩)
        = .success (enrich [⟨"Foo", 10⟩]) ⟨0⟩ ∧
      ∃ row ∈ enrich [⟨"Foo", 10⟩], row.Name = "Foo" ∧ row.Region = none) :=
  ⟨by decide, by decide,
    C1_unmapped_region_amended [⟨"Foo", 10⟩] ⟨0⟩ ⟨"Foo", 10⟩ (by decide) (by decide)⟩

/-! ## Claim C2 -/

/-- **C2.** For a raw source whose governorate names are exactly the 24
`region_map` keys, the set of distinct region values `enrich` assigns
equals the set of region names of the regional summary table, and that set
is the fixed 7-element set of region names. -/
theorem C2_region_set_consistency (raw : List RawRow)
    (h : (raw.map RawRow.Governorate).toFinset
        = (region_map.map Prod.fst).toFinset) :
    ((enrich raw).map GovRow.Region).toFinset
      = ((region_summary.map RegionRow.Region_name).map some).toFinset ∧
    (region_summary.map RegionRow.Region_name).toFinset =
      {"Grand Tunis", "Nord-Est", "Nord-Ouest", "Centre-Est", "Centre-Ouest",
        "Sud-Est", "Sud-Ouest"} := by
  constructor
  · have hmap : (enrich raw).map GovRow.Region
        = (raw.map RawRow.Governorate).map fun n => mapLookup n region_map := by
      simp [enrich]
    rw [hmap, toFinset_map_eq_image, h, ← toFinset_map_eq_image]
    decide
  · decide

/-- **C2, witness** at the raw table listing the 24 `region_map` keys. -/
theorem C2_region_set_consistency_witness :
    (((region_map.map fun p => (⟨p.1, 10⟩ : RawRow)).map RawRow.Governorate).toFinset
        = (region_map.map Prod.fst).toFinset) ∧
    (((enrich (region_map.map fun p => (⟨p.1, 10⟩ : RawRow))).map GovRow.Region).toFinset
        = ((region_summary.map RegionRow.Region_name).map some).toFinset ∧
      (region_summary.map RegionRow.Region_name).toFinset =
        {"Grand Tunis", "Nord-Est", "Nord-Ouest", "Centre-Est", "Centre-Ouest",
          "Sud-Est", "Sud-Ouest"}) :=
  ⟨by decide, C2_region_set_consistency _ (by decide)⟩

/-! ## Claim C3 -/

/-- **C3.** `rank` is one plus the number of rates strictly greater than
the given rate, and rank is antitone in the rate: for two governorates of
the table, the one with the strictly larger rate has the strictly smaller
rank. -/
theorem C3_rank_monotonicity (table : List GovRow) (A B : GovRow)
    (hA : A ∈ table) (_hB : B ∈ table)
    (hrate : B.Poverty_Rate < A.Poverty_Rate) :
    (∀ (x : ℚ) (l : List ℚ), rank x l = 1 + (l.countP fun r => decide (x < r))) ∧
    rank A.Poverty_Rate (table.map GovRow.Poverty_Rate)
      < rank B.Poverty_Rate (table.map GovRow.Poverty_Rate) := by
  refine ⟨fun x l => Nat.add_comm _ 1, ?_⟩
  have haMem : A.Poverty_Rate ∈ table.map GovRow.Poverty_Rate :=
    List.mem_map_of_mem _ hA
  have hcount := countP_gt_strict haMem hrate
  simp only [rank]
  omega

/-- A two-row table used to instantiate the rank theorem. -/
def rowX : GovRow := ⟨"X", 20, "Gouvernorat", some "R"⟩

/-- Second row of the two-row rank example. -/
def rowY : GovRow := ⟨"Y", 10, "Gouvernorat", some "S"⟩

/-- The two-row rank example table. -/
def tableXY : List GovRow := [rowX, rowY]

/-- **C3, witness** on a two-row table with rates 20 and 10. -/
theorem C3_rank_monotonicity_witness :
    rowX ∈ tableXY ∧ rowY ∈ tableXY ∧
    rowY.Poverty_Rate < rowX.Poverty_Rate ∧
    ((∀ (x : ℚ) (l : List ℚ), rank x l = 1 + (l.countP fun r => decide (x < r))) ∧
      rank rowX.Poverty_Rate (tableXY.map GovRow.Poverty_Rate)
        < rank rowY.Poverty_Rate (tableXY.map GovRow.Poverty_Rate)) :=
  ⟨by decide, by decide, by decide,
    C3_rank_monotonicity tableXY rowX rowY (by decide) (by decide) (by decide)⟩

/-! ## Claim C4 -/

/-- **C4, counterexample.** The claim says `estimatePoorPopulation` rounds
to nearest. On the code's own Sud-Est summary row
(`population = 1003273`, `rate = 17.8`) the exact value is `178582.594`:
the code's `int(...)` truncation yields `178582` while rounding to nearest
yields `178583`. -/
theorem C4_poor_population_counterexample :
    (∃ row ∈ region_summary, row.Population = 1003273 ∧ row.Taux_Pauvrete = 17.8) ∧
    poor_population 1003273 17.8 = 178582 ∧
    round ((1003273 : ℚ) * 17.8 / 100) = 178583 ∧
    (178582 : ℤ) ≠ 178583 := by
  refine ⟨⟨⟨"Sud-Est", 17.8, 1003273, ["Gabes", "Médenine", "Tataouine"]⟩,
    by simp [region_summary], rfl, rfl⟩, ?_, ?_, by decide⟩
  · rw [poor_population, pyInt_eq_floor (by norm_num)]
    norm_num
  · rw [round_eq]
    norm_num

/-- **C4, amended.** For a nonnegative rate, `poor_population` computes the
truncation (floor) of `population * rate / 100`, not the nearest integer;
at the claim's concrete input (`population = 2719000`, `rate = 6.1`) the
exact value `165859` is an integer, so the truncation returns it.
(In Python's binary floating point this very input evaluates to `165858`,
one below the exact value; the exact-arithmetic result is stated here.) -/
theorem C4_poor_population_amended (pop : ℕ) (rate : ℚ) (h : 0 ≤ rate) :
    poor_population pop rate = ⌊(pop : ℚ) * rate / 100⌋ ∧
    poor_population 2719000 6.1 = 165859 := by
  constructor
  · exact pyInt_eq_floor (by positivity)
  · rw [poor_population, pyInt_eq_floor (by norm_num)]
    norm_num

/-- **C4, witness** for the amended theorem at the claim's concrete
input. -/
theorem C4_poor_population_witness :
    (0 : ℚ) ≤ 6.1 ∧
    (poor_population 2719000 6.1 = ⌊(2719000 : ℚ) * 6.1 / 100⌋ ∧
      poor_population 2719000 6.1 = 165859) :=
  ⟨by norm_num, C4_poor_population_amended 2719000 6.1 (by norm_num)⟩

/-! ## Claim C5 -/

/-- The concrete scenario of the claim: three governorates A, B, C with
rates 10, 20, 30, all in the region `"R"`. -/
def scenarioR : List GovRow :=
  [⟨"A", 10, "Gouvernorat", some "R"⟩,
   ⟨"B", 20, "Gouvernorat", some "R"⟩,
   ⟨"C", 30, "Gouvernorat", some "R"⟩]

/-- **C5.** `stats` aggregates, for a region key, exactly the rates of that
region's member governorates, and on the concrete scenario
{A: 10, B: 20, C: 30} in region R it yields mean 20, median 20, min 10,
max 30, and sample standard deviation 10 (stated as its square, 100). -/
theorem C5_groupedStats :
    (∀ (records : List GovRow) (reg : String),
      stats records reg =
        { moyenne := meanQ (ratesIn records reg)
          mediane := medianQ (ratesIn records reg)
          minR := minQ (ratesIn records reg)
          maxR := maxQ (ratesIn records reg)
          ecartTypeSq := sampleVarQ (ratesIn records reg) }) ∧
    ratesIn scenarioR "R" = [10, 20, 30] ∧
    stats scenarioR "R" =
      { moyenne := some 20, mediane := some 20, minR := some 10,
        maxR := some 30, ecartTypeSq := some 100 } := by
  refine ⟨fun records reg => rfl, by decide, ?_⟩
  have hrates : ratesIn scenarioR "R" = [10, 20, 30] := by decide
  rw [stats, hrates]
  norm_num [meanQ, medianQ, minQ, maxQ, sampleVarQ, List.insertionSort,
    List.orderedInsert]

/-! ## Claim C6 -/

/-- **C6.** When the input has at least `n` records, `nlargest n` returns
exactly `n` records whose rates are at least every excluded record's rate;
symmetrically `nsmallest n` returns `n` records whose rates are at most
every excluded record's rate. Excluded records are, in both cases, exactly
the remainder of the stably sorted input, so returned ++ excluded is a
permutation of the input. -/
theorem C6_topN (records : List GovRow) (n : ℕ) (hn : n ≤ records.length) :
    ((nlargest n records).length = n ∧
      (∀ x ∈ nlargest n records, ∀ y ∈ (records.insertionSort rateGE).drop n,
        y.Poverty_Rate ≤ x.Poverty_Rate) ∧
      records.Perm (nlargest n records ++ (records.insertionSort rateGE).drop n)) ∧
    ((nsmallest n records).length = n ∧
      (∀ x ∈ nsmallest n records, ∀ y ∈ (records.insertionSort rateLE).drop n,
        x.Poverty_Rate ≤ y.Poverty_Rate) ∧
      records.Perm (nsmallest n records ++ (records.insertionSort rateLE).drop n)) := by
  refine ⟨⟨?_, ?_, ?_⟩, ?_, ?_, ?_⟩
  · rw [nlargest, List.length_take, List.length_insertionSort]
    omega
  · exact fun x hx y hy =>
      sorted_take_drop (List.sorted_insertionSort rateGE records) n x hx y hy
  · rw [nlargest, List.take_append_drop]
    exact (List.perm_insertionSort rateGE records).symm
  · rw [nsmallest, List.length_take, List.length_insertionSort]
    omega
  · exact fun x hx y hy =>
      sorted_take_drop (List.sorted_insertionSort rateLE records) n x hx y hy
  · rw [nsmallest, List.take_append_drop]
    exact (List.perm_insertionSort rateLE records).symm

/-- **C6, witness** on the 24-row sample table with `n = 5`. -/
theorem C6_topN_witness :
    5 ≤ sample24.length ∧
    (((nlargest 5 sample24).length = 5 ∧
      (∀ x ∈ nlargest 5 sample24, ∀ y ∈ (sample24.insertionSort rateGE).drop 5,
        y.Poverty_Rate ≤ x.Poverty_Rate) ∧
      sample24.Perm (nlargest 5 sample24 ++ (sample24.insertionSort rateGE).drop 5)) ∧
    ((nsmallest 5 sample24).length = 5 ∧
      (∀ x ∈ nsmallest 5 sample24, ∀ y ∈ (sample24.insertionSort rateLE).drop 5,
        x.Poverty_Rate ≤ y.Poverty_Rate) ∧
      sample24.Perm (nsmallest 5 sample24 ++ (sample24.insertionSort rateLE).drop 5))) :=
  ⟨by decide, C6_topN sample24 5 (by decide)⟩

/-! ## Claim C7 -/

/-- **C7, counterexample.** The claim says a failed load yields a
structured signal distinguishing "file missing" from "file malformed" from
"region lookup incomplete". In the code: a malformed CSV raises an
exception `load_data` does not catch; an unmapped governorate name does not
fail the load at all (the row gets a null region); and both missing-file
cases collapse to the same `(None, None)` banner outcome. -/
theorem C7_load_failure_counterexample :
    load_data .unparseable (.parsed ⟨0⟩) = .uncaughtException ∧
    load_data (.parsed [⟨"Foo", 10⟩]) (.parsed ⟨0⟩)
      = .success [⟨"Foo", 10, "Gouvernorat", none⟩] ⟨0⟩ ∧
    load_data .missing (.parsed ⟨0⟩) = .errorBanner ∧
    load_data (.parsed [⟨"Tunis", 10⟩]) .missing = .errorBanner := by
  refine ⟨rfl, by decide, rfl, rfl⟩

/-- **C7, amended.** `load_data` produces a structured signal only for the
missing-file case (one undifferentiated `(None, None)` banner covering
either file); a present-but-unparseable file propagates an uncaught
exception; an incomplete region lookup never fails the load — any
successfully read files produce a `success` outcome carrying the enriched
table. -/
theorem C7_load_failure_amended (csv : FileState (List RawRow))
    (geo : FileState GeoData) :
    (load_data csv geo = .errorBanner ↔
      csv = .missing ∨ ((∃ rows, csv = .parsed rows) ∧ geo = .missing)) ∧
    (load_data csv geo = .uncaughtException ↔
      csv = .unparseable ∨ ((∃ rows, csv = .parsed rows) ∧ geo = .unparseable)) ∧
    (∀ (rows : List RawRow) (g : GeoData),
      load_data (.parsed rows) (.parsed g) = .success (enrich rows) g) := by
  refine ⟨?_, ?_, fun rows g => rfl⟩ <;> cases csv <;> cases geo <;>
    simp [load_data]

/-! ## Claim C9 -/

/-- **C9.** The choropleth rendering step leaves the canonical enriched
table unchanged (it works on a copy); the name mapping defaults to the
identity on names without an entry; and every rendered row originates from
a canonical row whose original name it keeps in `display_name`. -/
theorem C9_rendering_frame (df : List GovRow) (n : String)
    (h : mapLookup n name_mapping = none) :
    (choroplethStep df).1 = df ∧
    applyNameMapping n = n ∧
    ∀ r ∈ gov_data_for_map df, ∃ g ∈ df,
      r.display_name = g.Name ∧ r.Name = applyNameMapping g.Name ∧
      r.Poverty_Rate = g.Poverty_Rate ∧ r.Region = g.Region := by
  refine ⟨rfl, by rw [applyNameMapping, h]; rfl, ?_⟩
  intro r hr
  rw [gov_data_for_map, List.mem_map] at hr
  obtain ⟨g, hg, rfl⟩ := hr
  exact ⟨g, List.mem_of_mem_filter hg, rfl, rfl, rfl, rfl⟩

/-- **C9, witness** on the 24-row sample table with the unmapped name
`"Tunis"`. -/
theorem C9_rendering_frame_witness :
    mapLookup "Tunis" name_mapping = none ∧
    ((choroplethStep sample24).1 = sample24 ∧
      applyNameMapping "Tunis" = "Tunis" ∧
      ∀ r ∈ gov_data_for_map sample24, ∃ g ∈ sample24,
        r.display_name = g.Name ∧ r.Name = applyNameMapping g.Name ∧
        r.Poverty_Rate = g.Poverty_Rate ∧ r.Region = g.Region) :=
  ⟨by decide, C9_rendering_frame sample24 "Tunis" (by decide)⟩

/-! ## Claim C8 -/

/-- **C8, counterexample.** The claim says the delegation placeholder's
schema is exactly the enriched governorate schema minus the rate column.
In the code the placeholder's columns (app.py line 61) include
`Poverty_Rate` itself, so the two column sets differ. -/
theorem C8_placeholder_schema_counterexample :
    "Poverty_Rate" ∈ delegationColumns ∧
    delegationColumns.toFinset ≠
      (enrichedColumns rawColumnsUsed).toFinset \ {"Poverty_Rate"} := by
  exact ⟨by decide, by decide⟩

/-- **C8, amended.** The delegation placeholder is always empty
(contributes zero rows), but its schema is
`{Name, Governorate, Region, Poverty_Rate, Type}`: relative to the enriched
governorate schema `{Name, Poverty_Rate, Type, Region}` it keeps the rate
column and adds an extra `Governorate` column. -/
theorem C8_placeholder_schema_amended :
    df_delegations = [] ∧
    delegationColumns.toFinset
      = (enrichedColumns rawColumnsUsed).toFinset ∪ {"Governorate"} ∧
    "Poverty_Rate" ∈ delegationColumns ∧
    "Governorate" ∈ delegationColumns ∧
    "Governorate" ∉ enrichedColumns rawColumnsUsed := by
  exact ⟨rfl, by decide, by decide, by decide, by decide⟩

/-! ## Claim C10 -/

/-- Normalization of the two spelling variants that the summary table uses
for lookup-table governorates: `"Seliana"` for the lookup key `"Siliana"`
and `"Médenine"` for the lookup key `"Medenine"`. -/
def displayVariant (s : String) : String :=
  if s = "Seliana" then "Siliana"
  else if s = "Médenine" then "Medenine" else s

/-- **C10, counterexample.** The claim says each region's `member_names`
are exactly the governorates the lookup maps to that region. The Nord-Ouest
summary row lists `"Seliana"`, which is not a key of `region_map` (the
lookup maps `"Siliana"` to Nord-Ouest), so the member list differs from the
lookup's member set. -/
theorem C10_member_names_counterexample :
    (∃ row ∈ region_summary, row.Region_name = "Nord-Ouest" ∧
      row.Gouvernorats = ["Beja", "Jendouba", "Le Kef", "Seliana"]) ∧
    regionMembers "Nord-Ouest" = ["Beja", "Jendouba", "Le Kef", "Siliana"] ∧
    "Seliana" ∉ region_map.map Prod.fst ∧
    (["Beja", "Jendouba", "Le Kef", "Seliana"] : List String) ≠
      ["Beja", "Jendouba", "Le Kef", "Siliana"] := by
  refine ⟨⟨⟨"Nord-Ouest", 25.8, 1378596, ["Beja", "Jendouba", "Le Kef", "Seliana"]⟩,
    by simp [region_summary], rfl, rfl⟩, by decide, by decide, by decide⟩

/-- **C10, amended.** Up to two variant spellings (`"Seliana"` for the
lookup key `"Siliana"`, `"Médenine"` for `"Medenine"`), each summary row's
member list is exactly, and in order, the list of governorates the lookup
maps to that row's region, and — the lookup keys being distinct — each
governorate appears in exactly one region's member list. -/
theorem C10_member_names_amended :
    (region_summary.map fun row => (row.Region_name, row.Gouvernorats.map displayVariant))
      = (region_summary.map fun row => (row.Region_name, regionMembers row.Region_name)) ∧
    (region_summary.map fun row => row.Gouvernorats.map displayVariant).flatten
      = region_map.map Prod.fst ∧
    (region_map.map Prod.fst).Nodup := by
  exact ⟨by decide, by decide, by decide⟩

end DashTunisia
